import Mathlib

/-!
Verification of the PolyFS image checker (polyfsck) against its specification.

The definitions below are a shallow embedding of src/tools/polyfs/polyfsck.c.
Machine integers are modelled as Nat (all relevant quantities are unsigned in
the source); fallible code returns Except, where an error value carries the
fsck exit code and the diagnostic message passed to the source's die().
External libraries (zlib inflate, LZO decompression, the host filesystem) are
abstracted as function parameters, following the spec's scoping (§1, §4.5).
-/

set_option maxRecDepth 100000

namespace Polyfsck

/-- fsck exit code FSCK_UNCORRECTED (polyfsck.c line 74). -/
def FSCK_UNCORRECTED : Nat := 4

/-- fsck exit code FSCK_ERROR (polyfsck.c line 75). -/
def FSCK_ERROR : Nat := 8

/-- PAD_SIZE (polyfsck.c line 79): the alternative superblock offset. -/
def PAD_SIZE : Nat := 512

/-- Modelled from the spec: POLYFS_BLOCK_SIZE is defined in polyfs/polyfs_fs.h,
which is not under src/; spec §6.3 fixes it to 4096. -/
def POLYFS_BLOCK_SIZE : Nat := 4096

/-- Modelled from the spec: sizeof(struct polyfs_super). The struct is declared
in polyfs/polyfs_fs.h (not under src/); spec §3.1 lists its fields as
magic, size, flags, future (4 bytes each), a 16-byte signature, the 16-byte
fsid (crc, edition, blocks, files), a 16-byte name and the embedded 12-byte
root inode: 16 + 16 + 16 + 16 + 12 = 76 bytes in total. -/
def SUPER_SIZE : Nat := 76

/-- Modelled from the spec: byte offset of fsid.crc inside the superblock
(magic 4 + size 4 + flags 4 + future 4 + signature 16 = 32, spec §3.1). -/
def CRC_OFFSET : Nat := 32

/-- Modelled from the spec: POLYFS_FLAG_FSID_VERSION_1 from polyfs_fs.h
(not under src/). The claims depend only on the four flag bits being distinct
and on the supported-set mask being their union (spec §3.4). -/
def POLYFS_FLAG_FSID_VERSION_1 : Nat := 0x1

/-- Modelled from the spec: POLYFS_FLAG_SHIFTED_ROOT_OFFSET from polyfs_fs.h. -/
def POLYFS_FLAG_SHIFTED_ROOT_OFFSET : Nat := 0x400

/-- Modelled from the spec: POLYFS_FLAG_LZO_COMPRESSION from polyfs_fs.h. -/
def POLYFS_FLAG_LZO_COMPRESSION : Nat := 0x800

/-- Modelled from the spec: POLYFS_FLAG_ZLIB_COMPRESSION from polyfs_fs.h. -/
def POLYFS_FLAG_ZLIB_COMPRESSION : Nat := 0x1000

/-- Modelled from the spec: POLYFS_SUPPORTED_FLAGS, the union of the four
supported flag bits (spec §3.4). -/
def POLYFS_SUPPORTED_FLAGS : Nat :=
  POLYFS_FLAG_FSID_VERSION_1 ||| POLYFS_FLAG_SHIFTED_ROOT_OFFSET |||
  POLYFS_FLAG_LZO_COMPRESSION ||| POLYFS_FLAG_ZLIB_COMPRESSION

/-- The 32-bit complement of POLYFS_SUPPORTED_FLAGS, so that
flags &&& UNSUPPORTED_MASK models the C expression flags & ~POLYFS_SUPPORTED_FLAGS
on a uint32 value. -/
def UNSUPPORTED_MASK : Nat := 0xFFFFFFFF - POLYFS_SUPPORTED_FLAGS

/-- POSIX file-mode constants (from the host C library, fixed by POSIX). -/
def S_IFMT : Nat := 0xF000

/-- POSIX directory file-type bits. -/
def S_IFDIR : Nat := 0x4000

/-- Initial value ~0UL of the start_dir / start_data counters
(polyfsck.c lines 93-95, on an LP64 host). -/
def UNDEF : Nat := 2 ^ 64 - 1

/-- Byte of an image at a given offset; reads past the end yield 0
(the source never reads past the end on the paths modelled here). -/
def byteAt (l : List Nat) (i : Nat) : Nat := l.getD i 0

/-- Little-endian 32-bit read at a byte offset, as POLYFS_32(*(uint32_t *)p)
on the on-disk little-endian data. -/
def read32LE (l : List Nat) (off : Nat) : Nat :=
  byteAt l off + 256 * byteAt l (off + 1) + 65536 * byteAt l (off + 2) +
    16777216 * byteAt l (off + 3)

/-- One shift-xor round of the bitwise CRC-32 (IEEE 802.3, reflected
polynomial 0xEDB88320), as computed by zlib's crc32. -/
def crcRound (c : Nat) : Nat :=
  if c &&& 1 = 1 then (c >>> 1) ^^^ 0xEDB88320 else c >>> 1

/-- Iterated CRC rounds. -/
def crcRounds : Nat → Nat → Nat
  | 0, c => c
  | n + 1, c => crcRounds n (crcRound c)

/-- CRC-32 update by one byte. -/
def crc32_update (c b : Nat) : Nat := crcRounds 8 (c ^^^ (b &&& 0xFF))

/-- The byte loop of zlib's crc32. The case split on crc32_update c b = 0 is
redundant (both branches continue with the updated accumulator); it is there
so that evaluating crcFold on a long concrete list keeps the accumulator in
normal form instead of building one deep thunk per byte. -/
def crcFold : Nat → List Nat → Nat
  | c, [] => c
  | c, b :: t =>
    if crc32_update c b = 0 then crcFold 0 t else crcFold (crc32_update c b) t

/-- CRC-32 of a byte list with initial crc 0, exactly zlib's
crc32(crc32(0, NULL, 0), buf, len): pre/post inversion around a
byte-at-a-time shift-xor loop. -/
def crc32 (l : List Nat) : Nat := crcFold 0xFFFFFFFF l ^^^ 0xFFFFFFFF

/-- In a byte list, skip p bytes and replace the next k bytes by zero,
leaving everything else unchanged. Used to model the source storing 0 over
the 4-byte fsid.crc field before computing the image CRC. -/
def zeroFrom (p k : Nat) (l : List Nat) : List Nat :=
  match p, k, l with
  | _, _, [] => []
  | 0, 0, l => l
  | 0, k + 1, _ :: t => 0 :: zeroFrom 0 k t
  | p + 1, k, b :: t => b :: zeroFrom p k t

/-- Model of test_crc (polyfsck.c lines 225-286), mmap path: the whole file is
mapped, the 4 bytes of fsid.crc at absolute offset start + 32 are overwritten
with crc32(0, NULL, 0) = 0, and the CRC is taken over super.size - start bytes
beginning at absolute offset start (line 250: crc32(crc, buf+start,
super.size-start)). A mismatch with the stored super.fsid.crc dies
UNCORRECTED "crc error"; without the FSID_VERSION_1 flag the function returns
silently (lines 230-236, INCLUDE_FS_TESTS is defined). -/
def test_crc (flags : Nat) (img : List Nat) (start size stored : Nat) :
    Except (Nat × String) Unit :=
  if flags &&& POLYFS_FLAG_FSID_VERSION_1 = 0 then .ok ()
  else if crc32 (((zeroFrom (start + CRC_OFFSET) 4 img).drop start).take
      (size - start)) ≠ stored then
    .error (FSCK_UNCORRECTED, "crc error")
  else .ok ()

/-- The CRC computation exactly as claim C2 states it: CRC-32 over the byte
range from start to start + super.size, with the 4 crc-field bytes (offset 32
within that range) treated as zero. -/
def crcClaimRange (img : List Nat) (start size : Nat) : Nat :=
  crc32 (zeroFrom CRC_OFFSET 4 ((img.drop start).take size))

/-- A concrete 76-byte superblock for the padded-image counterexample:
magic 0x7D3CD059 (little-endian), size 4096, flags FSID_VERSION_1,
fsid.crc 0x136DDFC8 (the value the checker computes for this image),
fsid.files 1, root a directory inode whose payload offset field is
588 / 4 = 147 (packed word 147 <<< 6 = 0x24C0, little-endian). -/
def c2SuperBytes : List Nat :=
  [0x59, 0xD0, 0x3C, 0x7D, 0x00, 0x10, 0x00, 0x00,
   0x01, 0x00, 0x00, 0x00, 0x00, 0x00, 0x00, 0x00] ++
  List.replicate 16 0 ++
  [0xC8, 0xDF, 0x6D, 0x13, 0, 0, 0, 0, 0, 0, 0, 0, 0x01, 0x00, 0x00, 0x00] ++
  List.replicate 16 0 ++
  [0xED, 0x41, 0x00, 0x00, 0x00, 0x00, 0x00, 0x00, 0xC0, 0x24, 0x00, 0x00]

/-- A 4608-byte padded image: 512 zero pad bytes, the superblock at offset 512
(so the decoder picks start = 512), declared size 4096, and a file length of
4608 > 4096 (accepted by test_super with a non-fatal warning). -/
def c2Img : List Nat :=
  List.replicate 512 0 ++ (c2SuperBytes ++ List.replicate 4020 0xAB)

/-- The CRC the checker actually computes and stores for c2Img. -/
def c2Crc : Nat := 0x136DDFC8

/-- Model of uncompress_block (polyfsck.c lines 350-417). The zlib and LZO
decompressors are external libraries (spec §1) and appear as the parameters
inflateFn and lzoDec, each mapping an input byte list and an output-size bound
to the decompressed bytes or a library error. The result is the returned
length together with the contents of the shared outbuffer after the call.
In the LZO branch the source decompresses a second time with input and output
aliasing one buffer and compares length and CRC against the first run; with
the library abstracted as a pure function only the differing output bound of
the second run (line 376) is visible. In the uncompressed branch the source
checks len > POLYFS_BLOCK_SIZE and then returns len without writing to
outbuffer (lines 411-416): the buffer is passed through unchanged. -/
def uncompress_block (lzoDec inflateFn : List Nat → Nat → Except String (List Nat))
    (flags : Nat) (src : List Nat) (len : Nat) (outbuffer : List Nat) :
    Except (Nat × String) (Nat × List Nat) :=
  if flags &&& POLYFS_FLAG_LZO_COMPRESSION ≠ 0 then
    if len > POLYFS_BLOCK_SIZE + POLYFS_BLOCK_SIZE / 16 + 64 + 3 then
      .error (FSCK_UNCORRECTED, "data block too large")
    else
      match lzoDec (src.take len) (POLYFS_BLOCK_SIZE * 2) with
      | .error _ => .error (FSCK_UNCORRECTED, "decompression error")
      | .ok out =>
        match lzoDec (src.take len)
            (if len < POLYFS_BLOCK_SIZE then out.length else POLYFS_BLOCK_SIZE) with
        | .error _ => .error (FSCK_UNCORRECTED, "LZO overlap decompression failed (1)")
        | .ok out2 =>
          if out2.length ≠ out.length ∨ crc32 out2 ≠ crc32 out then
            .error (FSCK_UNCORRECTED, "LZO overlap decompression failed (2)")
          else .ok (out.length, out ++ outbuffer.drop out.length)
  else if flags &&& POLYFS_FLAG_ZLIB_COMPRESSION ≠ 0 then
    if len > POLYFS_BLOCK_SIZE * 2 then
      .error (FSCK_UNCORRECTED, "data block too large")
    else
      match inflateFn (src.take len) (POLYFS_BLOCK_SIZE * 2) with
      | .error _ => .error (FSCK_UNCORRECTED, "decompression error")
      | .ok out => .ok (out.length, out ++ outbuffer.drop out.length)
  else
    if len > POLYFS_BLOCK_SIZE then
      .error (FSCK_UNCORRECTED, "data block too large")
    else .ok (len, outbuffer)

/-- Model of the do-while loop of do_uncompress (polyfsck.c lines 423-462).
The call to uncompress_block is abstracted as the parameter ub, mapping the
compressed data's start offset and length to the returned length and the
bytes the block contributes to the extracted file (the outbuffer prefix that
the write() call at line 457 emits). State: offset is the position of the
next 32-bit block-end pointer, curr the start of the current block's
compressed data, size the remaining logical file size, endData the end_data
counter, and acc the bytes written so far. The source loop has no fuel; one
loop iteration consumes at least one block, so any fuel of at least
ceil(size / POLYFS_BLOCK_SIZE) blocks is enough, and the artificial
out-of-fuel error is never reached from do_uncompress. -/
def duLoop (ub : Nat → Nat → Except (Nat × String) (Nat × List Nat))
    (img : List Nat) :
    Nat → Nat → Nat → Nat → Nat → List Nat →
    Except (Nat × String) (Nat × List Nat)
  | 0, _, _, _, _, _ => .error (FSCK_ERROR, "out of fuel")
  | fuel + 1, offset, curr, size, endData, acc =>
    let next := read32LE img offset
    let endData2 := max endData next
    match (if curr = next then
             Except.ok ((if size < POLYFS_BLOCK_SIZE then size else POLYFS_BLOCK_SIZE),
               List.replicate (if size < POLYFS_BLOCK_SIZE then size else POLYFS_BLOCK_SIZE) 0)
           else ub curr (next - curr) :
           Except (Nat × String) (Nat × List Nat)) with
    | .error e => .error e
    | .ok (out, bytes) =>
      if POLYFS_BLOCK_SIZE ≤ size ∧ out ≠ POLYFS_BLOCK_SIZE then
        .error (FSCK_UNCORRECTED, "non-block bytes")
      else if size < POLYFS_BLOCK_SIZE ∧ out ≠ size then
        .error (FSCK_UNCORRECTED, "non-size bytes")
      else if size - out = 0 then .ok (endData2, acc ++ bytes.take out)
      else duLoop ub img fuel (offset + 4) next (size - out) endData2 (acc ++ bytes.take out)

/-- Model of do_uncompress (polyfsck.c lines 419-463): the block-pointer walk
starts with curr just past the pointer array of ceil(size / BLOCK_SIZE)
little-endian 32-bit entries at offset. -/
def do_uncompress (ub : Nat → Nat → Except (Nat × String) (Nat × List Nat))
    (img : List Nat) (offset size endData : Nat) :
    Except (Nat × String) (Nat × List Nat) :=
  let nblocks := (size + POLYFS_BLOCK_SIZE - 1) / POLYFS_BLOCK_SIZE
  duLoop ub img nblocks offset (offset + 4 * nblocks) size endData []

/-- Model of do_symlink (polyfsck.c lines 584-626): ioffset is the raw 26-bit
inode offset field (the payload offset is ioffset * 4), isize the declared
size; ub abstracts uncompress_block as in duLoop. On success the updated
(start_data, end_data) pair is returned; extraction side effects are omitted. -/
def do_symlink (ub : Nat → Nat → Except (Nat × String) (Nat × List Nat))
    (img : List Nat) (ioffset isize startData endData : Nat) :
    Except (Nat × String) (Nat × Nat) :=
  if ioffset * 4 = 0 then
    .error (FSCK_UNCORRECTED, "symbolic link has zero offset")
  else if isize = 0 then
    .error (FSCK_UNCORRECTED, "symbolic link has zero size")
  else
    match ub (ioffset * 4 + 4) (read32LE img (ioffset * 4) - (ioffset * 4 + 4)) with
    | .error e => .error e
    | .ok (out, _) =>
      if out ≠ isize then .error (FSCK_UNCORRECTED, "size error in symlink")
      else .ok
        ((if ioffset * 4 < startData then ioffset * 4 else startData),
          (if read32LE img (ioffset * 4) > endData then read32LE img (ioffset * 4)
            else endData))

/-- Model of the child loop of do_directory (polyfsck.c lines 519-548).
namelenAt gives the namelen field of the inode record at a byte offset,
padAt the number of trailing NUL padding bytes of the name copied at a byte
offset (the source's (pathlen + newlen) - strlen(newpath)), and expandChild
the recursive expand_fs call on the child inode at a byte offset. count is
the source's signed int count, initialised to the directory's declared size
and decremented by each child's record size; the loop runs while count > 0
and performs no other test on count. The fuel argument only bounds the
recursion depth of the model; the source loop runs until count ≤ 0 or die().
On success the final end_dir value is returned. -/
def dirLoop (namelenAt padAt : Nat → Nat)
    (expandChild : Nat → Except (Nat × String) Unit) (startDir : Nat) :
    Nat → Int → Nat → Nat → Except (Nat × String) Nat
  | 0, count, _, endDir =>
    if count ≤ 0 then .ok endDir else .error (FSCK_ERROR, "out of fuel")
  | fuel + 1, count, offset, endDir =>
    if count ≤ 0 then .ok endDir
    else
      let newlen := namelenAt offset * 4
      let count2 := count - (12 + (newlen : Int))
      let offset2 := offset + 12
      if newlen = 0 then .error (FSCK_UNCORRECTED, "filename length is zero")
      else if 3 < padAt offset2 then .error (FSCK_UNCORRECTED, "bad filename length")
      else
        match expandChild offset with
        | .error e => .error e
        | .ok _ =>
          let offset3 := offset2 + newlen
          if offset3 ≤ startDir then .error (FSCK_UNCORRECTED, "bad inode offset")
          else dirLoop namelenAt padAt expandChild startDir fuel count2 offset3
            (max endDir offset3)

/-- Model of the checks test_super performs after the superblock has been
located and endian-normalised (polyfsck.c lines 202-222): the unsupported-flag
test dies with exit code FSCK_ERROR, everything after it with
FSCK_UNCORRECTED; a file length beyond super.size is only a warning. -/
def test_super_checks (flags size files length : Nat) :
    Except (Nat × String) Unit :=
  if flags &&& UNSUPPORTED_MASK ≠ 0 then
    .error (FSCK_ERROR, "unsupported filesystem features")
  else if size < POLYFS_BLOCK_SIZE then
    .error (FSCK_UNCORRECTED, "superblock size too small")
  else if flags &&& POLYFS_FLAG_FSID_VERSION_1 ≠ 0 then
    if files = 0 then .error (FSCK_UNCORRECTED, "zero file count")
    else if length < size then .error (FSCK_UNCORRECTED, "file length too short")
    else .ok ()
  else .error (FSCK_UNCORRECTED, "invalid filesystem version")

/-- Model of the layout checks test_fs performs after the walk
(polyfsck.c lines 711-723): only when start_data was ever set (≠ ~0UL) are
start_data ≥ sizeof(super) + start and end_dir = start_data enforced, and
only end_data ≤ super.size is checked under FSID_VERSION_1; the start_dir
counter is not consulted at all. -/
def test_fs_final (flags start _startDir endDir startData endData size : Nat) :
    Except (Nat × String) Unit :=
  if startData ≠ UNDEF ∧ startData < SUPER_SIZE + start then
    .error (FSCK_UNCORRECTED,
      "directory data start < sizeof(struct polyfs_super) + start")
  else if startData ≠ UNDEF ∧ endDir ≠ startData then
    .error (FSCK_UNCORRECTED, "directory data end != file data start")
  else if flags &&& POLYFS_FLAG_FSID_VERSION_1 ≠ 0 ∧ size < endData then
    .error (FSCK_UNCORRECTED, "invalid file data offset")
  else .ok ()

/-- Model of test_fs (polyfsck.c lines 689-725): decode the root inode, check
that it is a directory, check the root offset when SHIFTED_ROOT_OFFSET is
clear, run the walk (abstracted as expandRes, which either dies or yields the
final start_dir, end_dir, start_data, end_data counters), then run the final
layout checks. rootOffsetField is the raw 26-bit offset field; the payload
offset is rootOffsetField * 4 (line 695). -/
def test_fs (expandRes : Except (Nat × String) (Nat × Nat × Nat × Nat))
    (flags rootMode rootOffsetField start size : Nat) :
    Except (Nat × String) Unit :=
  let root_offset := rootOffsetField * 4
  if rootMode &&& S_IFMT ≠ S_IFDIR then
    .error (FSCK_UNCORRECTED, "root inode is not directory")
  else if flags &&& POLYFS_FLAG_SHIFTED_ROOT_OFFSET = 0 ∧
      root_offset ≠ SUPER_SIZE ∧ root_offset ≠ PAD_SIZE + SUPER_SIZE then
    .error (FSCK_UNCORRECTED, "bad root offset")
  else
    match expandRes with
    | .error e => .error e
    | .ok (sd, ed, sdat, edat) => test_fs_final flags start sd ed sdat edat size

/-- The layout-invariant chain exactly as claim C1 (spec §3.5) states it,
over the four counters at walk completion. -/
def layoutChain (start startDir endDir startData endData size : Nat) : Prop :=
  SUPER_SIZE + start ≤ startDir ∧ startDir ≤ endDir ∧ endDir ≤ startData ∧
    startData ≤ endData ∧ endData ≤ size

theorem zeroFrom_nil (p k : Nat) : zeroFrom p k [] = [] := by
  cases p <;> cases k <;> rfl

theorem zeroFrom_succ (p k b : Nat) (t : List Nat) :
    zeroFrom (p + 1) k (b :: t) = b :: zeroFrom p k t := rfl

theorem zeroFrom_zero_zero (l : List Nat) : zeroFrom 0 0 l = l := by
  cases l <;> rfl

theorem zeroFrom_zero_succ (k b : Nat) (t : List Nat) :
    zeroFrom 0 (k + 1) (b :: t) = 0 :: zeroFrom 0 k t := rfl

/-- Dropping s leading bytes commutes with zeroing a field s bytes further in. -/
theorem zeroFrom_drop (s p k : Nat) :
    ∀ l : List Nat, (zeroFrom (s + p) k l).drop s = zeroFrom p k (l.drop s) := by
  induction s with
  | zero => intro l; simp
  | succ s ih =>
    intro l
    cases l with
    | nil => simp [zeroFrom_nil]
    | cons b t =>
      have h : s + 1 + p = (s + p) + 1 := by omega
      rw [h, zeroFrom_succ]
      simpa using ih t

/-- Truncating a byte list commutes with zeroing a field. -/
theorem zeroFrom_take :
    ∀ (l : List Nat) (p k n : Nat), (zeroFrom p k l).take n = zeroFrom p k (l.take n)
  | [], p, k, n => by simp [zeroFrom_nil]
  | _ :: _, p, k, 0 => by simp [zeroFrom_nil]
  | b :: t, 0, 0, n + 1 => by simp [zeroFrom_zero_zero]
  | b :: t, 0, k + 1, n + 1 => by
    simp [zeroFrom_zero_succ, zeroFrom_take t 0 k n]
  | b :: t, p + 1, k, n + 1 => by
    simp [zeroFrom_succ, zeroFrom_take t p k n]

/-- Zeroing a field keeps the length of a byte list. -/
theorem zeroFrom_length : ∀ (p k : Nat) (l : List Nat),
    (zeroFrom p k l).length = l.length
  | _, _, [] => by simp [zeroFrom_nil]
  | 0, 0, _ :: _ => by simp [zeroFrom_zero_zero]
  | 0, k + 1, b :: t => by simp [zeroFrom_zero_succ, zeroFrom_length 0 k t]
  | p + 1, k, b :: t => by simp [zeroFrom_succ, zeroFrom_length p k t]

/-- When the zeroed field lies inside the first part of an append, zeroFrom
acts on that part alone. -/
theorem zeroFrom_append_left :
    ∀ (l₁ l₂ : List Nat) (p k : Nat), p + k ≤ l₁.length →
      zeroFrom p k (l₁ ++ l₂) = zeroFrom p k l₁ ++ l₂
  | [], l₂, p, k, h => by
    simp only [List.length_nil] at h
    have hp : p = 0 := by omega
    have hk : k = 0 := by omega
    simp [hp, hk, zeroFrom_zero_zero, zeroFrom_nil]
  | b :: t, l₂, p + 1, k, h => by
    simp only [List.cons_append, zeroFrom_succ]
    rw [zeroFrom_append_left t l₂ p k (by simp at h; omega)]
  | b :: t, l₂, 0, 0, _ => by simp [zeroFrom_zero_zero]
  | b :: t, l₂, 0, k + 1, h => by
    simp only [List.cons_append, zeroFrom_zero_succ]
    rw [zeroFrom_append_left t l₂ 0 k (by simp at h; omega)]

/-- When the zeroed field lies past the first part of an append, zeroFrom
passes the first part through and acts on the rest. -/
theorem zeroFrom_append_right :
    ∀ (l₁ l₂ : List Nat) (p k : Nat), l₁.length ≤ p →
      zeroFrom p k (l₁ ++ l₂) = l₁ ++ zeroFrom (p - l₁.length) k l₂
  | [], l₂, p, k, _ => by simp
  | b :: t, l₂, p + 1, k, h => by
    simp only [List.cons_append, zeroFrom_succ]
    rw [zeroFrom_append_right t l₂ p k (by simp at h; omega)]
    simp [Nat.succ_sub_succ]

/-- The CRC byte loop splits over list append. -/
theorem crcFold_append (c : Nat) :
    ∀ a b : List Nat, crcFold c (a ++ b) = crcFold (crcFold c a) b := by
  intro a
  induction a generalizing c with
  | nil => intro b; rfl
  | cons x t ih =>
    intro b
    by_cases h : crc32_update c x = 0
    · simp [crcFold, h, ih]
    · simp [crcFold, h, ih]

/-- The byte range the source CRC-checks for c2Img: super.size - start = 3584
bytes from offset 512, with the crc field (absolute offset 544) zeroed. -/
theorem c2_code_range :
    ((zeroFrom (512 + CRC_OFFSET) 4 c2Img).drop 512).take (4096 - 512) =
      zeroFrom 32 4 c2SuperBytes ++ List.replicate 3508 0xAB := by
  have hdrop : ∀ X : List Nat, (List.replicate 512 (0 : Nat) ++ X).drop 512 = X := by
    intro X
    simp
  show ((zeroFrom 544 4 c2Img).drop 512).take 3584 = _
  rw [c2Img, zeroFrom_append_right (List.replicate 512 0) _ 544 4 (by simp)]
  simp only [List.length_replicate]
  rw [show (544 - 512 : Nat) = 32 from rfl,
    zeroFrom_append_left c2SuperBytes _ 32 4 (by decide)]
  rw [hdrop]
  rw [List.take_append_eq_append_take]
  rw [List.take_of_length_le (by rw [zeroFrom_length]; decide)]
  rw [zeroFrom_length]
  rw [show c2SuperBytes.length = 76 from by decide]
  rw [show (3584 - 76 : Nat) = 3508 from rfl, List.take_replicate]
  rfl

/-- The byte range claim C2 asks for on c2Img: super.size = 4096 bytes from
offset 512, with the crc field (offset 32 into the range) zeroed. -/
theorem c2_claim_range :
    zeroFrom CRC_OFFSET 4 ((c2Img.drop 512).take 4096) =
      zeroFrom 32 4 c2SuperBytes ++ List.replicate 4020 0xAB := by
  have hdrop : ∀ X : List Nat, (List.replicate 512 (0 : Nat) ++ X).drop 512 = X := by
    intro X
    simp
  rw [c2Img, hdrop]
  rw [List.take_append_eq_append_take]
  rw [List.take_of_length_le (by decide : c2SuperBytes.length ≤ 4096)]
  rw [show c2SuperBytes.length = 76 from by decide]
  rw [show (4096 - 76 : Nat) = 4020 from rfl, List.take_replicate]
  rw [show min 4020 4020 = 4020 from rfl]
  exact zeroFrom_append_left c2SuperBytes _ 32 4 (by decide)

theorem c2_crc_chunk0 :
    crcFold 0xFFFFFFFF (zeroFrom 32 4 c2SuperBytes) = 1740690674 := by decide

theorem c2_crc_chunk1 :
    crcFold 1740690674 (List.replicate 1754 0xAB) = 1975053955 := by decide

theorem c2_crc_chunk2 :
    crcFold 1975053955 (List.replicate 1754 0xAB) = 3968999479 := by decide

theorem c2_crc_chunk3 :
    crcFold 3968999479 (List.replicate 512 0xAB) = 1549714672 := by decide

/-- The CRC the source computes for c2Img equals the stored value c2Crc. -/
theorem c2_code_crc :
    crc32 (((zeroFrom (512 + CRC_OFFSET) 4 c2Img).drop 512).take (4096 - 512)) =
      c2Crc := by
  rw [c2_code_range, crc32, show (3508 : Nat) = 1754 + 1754 from rfl,
    List.replicate_add, crcFold_append, crcFold_append,
    c2_crc_chunk0, c2_crc_chunk1, c2_crc_chunk2]
  rfl

/-- The CRC claim C2 asks for on c2Img differs from the stored value. -/
theorem c2_claim_crc : crcClaimRange c2Img 512 4096 = 2745252623 := by
  rw [crcClaimRange, c2_claim_range, crc32,
    show (4020 : Nat) = 1754 + (1754 + 512) from rfl,
    List.replicate_add, List.replicate_add, crcFold_append, crcFold_append,
    crcFold_append, c2_crc_chunk0, c2_crc_chunk1, c2_crc_chunk2, c2_crc_chunk3]
  rfl

/-- C2 counterexample: a padded image (start = 512, super.size = 4096, file
length 4608) that the CRC verifier accepts, although the CRC-32 over the byte
range from start to start + super.size claimed by C2 differs from the stored
value: the source computes the CRC over super.size - start bytes, lines
250 and 274 of polyfsck.c, not over super.size bytes. -/
theorem c2_crc_range_counterexample :
    test_crc 0x1 c2Img 512 4096 c2Crc = .ok () ∧
      crcClaimRange c2Img 512 4096 ≠ c2Crc := by
  constructor
  · rw [test_crc, if_neg (by decide), if_neg (not_ne_iff.mpr c2_code_crc)]
  · rw [c2_claim_crc]
    decide

/-- C2 (amended): with FSID_VERSION_1 set, test_crc dies UNCORRECTED
"crc error" exactly when the CRC-32 over the super.size - start bytes
starting at start, with the 4 bytes of fsid.crc (offset 32 into that range)
treated as zero, differs from the stored super.fsid.crc. -/
theorem c2_crc_range_amended (flags : Nat) (img : List Nat)
    (start size stored : Nat) (hv : flags &&& POLYFS_FLAG_FSID_VERSION_1 ≠ 0) :
    test_crc flags img start size stored =
        .error (FSCK_UNCORRECTED, "crc error") ↔
      crc32 (zeroFrom CRC_OFFSET 4 ((img.drop start).take (size - start))) ≠
        stored := by
  unfold test_crc
  rw [if_neg hv, zeroFrom_drop start CRC_OFFSET 4 img, zeroFrom_take]
  split_ifs with hc
  · simp [hc]
  · simp [hc]

/-- C2 amended witness: the amended characterisation evaluated on the
concrete padded image. -/
theorem c2_crc_range_amended_witness :
    (0x1 &&& POLYFS_FLAG_FSID_VERSION_1 ≠ 0) ∧
      (test_crc 0x1 c2Img 512 4096 c2Crc =
          .error (FSCK_UNCORRECTED, "crc error") ↔
        crc32 (zeroFrom CRC_OFFSET 4 ((c2Img.drop 512).take (4096 - 512))) ≠
          c2Crc) :=
  ⟨by decide, c2_crc_range_amended 0x1 c2Img 512 4096 c2Crc (by decide)⟩

/-- C1 counterexample: the final layout check accepts the counter state left
by a minimal valid image (one empty root directory: start_dir and start_data
still ~0UL, end_dir and end_data still 0 — spec §8, concrete scenario 1),
although that state violates the claimed chain of inequalities
(start_dir = ~0UL is not ≤ end_dir = 0). -/
theorem c1_layout_chain_counterexample :
    test_fs_final 0x1 0 UNDEF 0 UNDEF 0 4096 = .ok () ∧
      ¬ layoutChain 0 UNDEF 0 UNDEF 0 4096 := by
  constructor
  · rfl
  · rw [layoutChain]
    decide

/-- C1 (amended): at walk completion the checker enforces only these facts:
when start_data was ever set (≠ ~0UL), it requires
sizeof(super) + start ≤ start_data and end_dir = start_data, and under
FSID_VERSION_1 it requires end_data ≤ super.size; each violation dies
UNCORRECTED with the corresponding message. The start_dir counter and the
links of the §3.5 chain involving it are not checked. -/
theorem c1_layout_checks_amended (flags start sd ed sdat edat size : Nat) :
    (test_fs_final flags start sd ed sdat edat size = .ok () ↔
      ((sdat ≠ UNDEF → SUPER_SIZE + start ≤ sdat ∧ ed = sdat) ∧
        (flags &&& POLYFS_FLAG_FSID_VERSION_1 ≠ 0 → edat ≤ size)))
    ∧ (sdat ≠ UNDEF → sdat < SUPER_SIZE + start →
        test_fs_final flags start sd ed sdat edat size =
          .error (FSCK_UNCORRECTED,
            "directory data start < sizeof(struct polyfs_super) + start"))
    ∧ (sdat ≠ UNDEF → SUPER_SIZE + start ≤ sdat → ed ≠ sdat →
        test_fs_final flags start sd ed sdat edat size =
          .error (FSCK_UNCORRECTED, "directory data end != file data start"))
    ∧ ((sdat = UNDEF ∨ (SUPER_SIZE + start ≤ sdat ∧ ed = sdat)) →
        flags &&& POLYFS_FLAG_FSID_VERSION_1 ≠ 0 → size < edat →
        test_fs_final flags start sd ed sdat edat size =
          .error (FSCK_UNCORRECTED, "invalid file data offset")) := by
  refine ⟨?_, ?_, ?_, ?_⟩
  · unfold test_fs_final
    split_ifs with h1 h2 h3
    · simp only [iff_iff_implies_and_implies]
      constructor
      · intro h; exact absurd h (by simp)
      · rintro ⟨hA, -⟩
        have := (hA h1.1).1
        omega
    · simp only [iff_iff_implies_and_implies]
      constructor
      · intro h; exact absurd h (by simp)
      · rintro ⟨hA, -⟩
        exact absurd (hA h2.1).2 h2.2
    · simp only [iff_iff_implies_and_implies]
      constructor
      · intro h; exact absurd h (by simp)
      · rintro ⟨-, hB⟩
        have := hB h3.1
        omega
    · simp only [true_iff, eq_self_iff_true, iff_true]
      constructor
      · intro hne
        constructor
        · by_contra hlt
          exact h1 ⟨hne, by omega⟩
        · by_contra hed
          exact h2 ⟨hne, hed⟩
      · intro hv
        by_contra hgt
        exact h3 ⟨hv, by omega⟩
  · intro hne hlt
    unfold test_fs_final
    rw [if_pos ⟨hne, hlt⟩]
  · intro hne hge hed
    unfold test_fs_final
    rw [if_neg (by rintro ⟨-, h⟩; omega), if_pos ⟨hne, hed⟩]
  · intro hcase hv hlt
    unfold test_fs_final
    rcases hcase with h | ⟨hge, hed⟩
    · rw [if_neg (by rintro ⟨hne, -⟩; exact hne h),
        if_neg (by rintro ⟨hne, -⟩; exact hne h), if_pos ⟨hv, hlt⟩]
    · rw [if_neg (by rintro ⟨-, h⟩; omega),
        if_neg (by rintro ⟨-, h⟩; exact h hed), if_pos ⟨hv, hlt⟩]

/-- C1 amended witness: a state with start_data below the superblock is
rejected with the message about the first enforced inequality. -/
theorem c1_layout_checks_amended_witness :
    test_fs_final 0x1 0 UNDEF 90 50 100 4096 =
      .error (FSCK_UNCORRECTED,
        "directory data start < sizeof(struct polyfs_super) + start") :=
  (c1_layout_checks_amended 0x1 0 UNDEF 90 50 100 4096).2.1 (by decide) (by decide)

/-- C3 counterexample: with SHIFTED_ROOT_OFFSET clear and start = 0, the
walker accepts a root whose payload offset is 588 = PAD_SIZE + sizeof(super),
although the claim requires the offset to equal sizeof(super) + start = 76
for the specific start chosen by the decoder: the source (lines 698-703)
accepts either of the two constants regardless of start. -/
theorem c3_root_offset_counterexample :
    test_fs (.ok (UNDEF, 0, UNDEF, 0)) 0x1 0x41ED 147 0 4096 = .ok () ∧
      147 * 4 ≠ SUPER_SIZE + 0 := by
  constructor
  · rfl
  · decide

/-- C3 (amended): with SHIFTED_ROOT_OFFSET clear, the walker dies UNCORRECTED
"bad root offset" exactly when the root payload offset differs from both
sizeof(super) = 76 and PAD_SIZE + sizeof(super) = 588, independently of the
start offset the superblock decoder chose. -/
theorem c3_root_offset_amended
    (expandRes : Except (Nat × String) (Nat × Nat × Nat × Nat))
    (flags rootMode field start size : Nat)
    (hmode : rootMode &&& S_IFMT = S_IFDIR)
    (hshift : flags &&& POLYFS_FLAG_SHIFTED_ROOT_OFFSET = 0) :
    (field * 4 ≠ SUPER_SIZE → field * 4 ≠ PAD_SIZE + SUPER_SIZE →
      test_fs expandRes flags rootMode field start size =
        .error (FSCK_UNCORRECTED, "bad root offset"))
    ∧ (∀ sd ed sdat edat, expandRes = .ok (sd, ed, sdat, edat) →
        (field * 4 = SUPER_SIZE ∨ field * 4 = PAD_SIZE + SUPER_SIZE) →
        test_fs expandRes flags rootMode field start size ≠
          .error (FSCK_UNCORRECTED, "bad root offset")) := by
  constructor
  · intro h76 h588
    unfold test_fs
    rw [if_neg (by simp [hmode]), if_pos ⟨hshift, h76, h588⟩]
  · intro sd ed sdat edat hexp hoff
    unfold test_fs
    rw [if_neg (by simp [hmode]),
      if_neg (by rintro ⟨-, h1, h2⟩; rcases hoff with h | h; exacts [h1 h, h2 h]),
      hexp]
    show test_fs_final flags start sd ed sdat edat size ≠ _
    unfold test_fs_final
    split_ifs <;> simp

/-- C3 amended witness: a root offset equal to neither constant is rejected. -/
theorem c3_root_offset_amended_witness :
    test_fs (.ok (UNDEF, 0, UNDEF, 0)) 0x1 0x41ED 1 0 4096 =
      .error (FSCK_UNCORRECTED, "bad root offset") :=
  (c3_root_offset_amended (.ok (UNDEF, 0, UNDEF, 0)) 0x1 0x41ED 1 0 4096
    (by decide) (by decide)).1 (by decide) (by decide)

/-- C4: in uncompressed mode (neither compression flag set) the source
rejects declared lengths above BLOCK_SIZE, but it returns the declared
length without copying the input into the shared output buffer
(polyfsck.c lines 411-416 contain no copy): the buffer comes back unchanged,
still holding its previous contents, which are not the block's stored bytes.
Evaluated here at the failing input of the code_bug record. -/
theorem c4_uncompressed_block_not_copied :
    uncompress_block (fun _ _ => .error "unused") (fun _ _ => .error "unused")
        0x1 [1, 2, 3, 4] 4 (List.replicate 8192 7) =
      .ok (4, List.replicate 8192 7)
    ∧ (List.replicate 8192 7).take 4 ≠ [1, 2, 3, 4]
    ∧ uncompress_block (fun _ _ => .error "unused") (fun _ _ => .error "unused")
        0x1 (List.replicate 5000 1) 5000 (List.replicate 8192 7) =
      .error (FSCK_UNCORRECTED, "data block too large") := by
  refine ⟨rfl, by decide, rfl⟩

/-- C5: in the block loop of do_uncompress, when the current block is not a
hole and uncompress_block returns a length out, the run dies UNCORRECTED
"non-block bytes" if at least BLOCK_SIZE bytes remain and out ≠ BLOCK_SIZE,
dies UNCORRECTED "non-size bytes" if fewer than BLOCK_SIZE bytes remain and
out differs from the remainder, and any run that ends in success had
out equal to the required value at this block. -/
theorem c5_block_size_checks
    (ub : Nat → Nat → Except (Nat × String) (Nat × List Nat)) (img : List Nat)
    (fuel offset curr size endData : Nat) (acc : List Nat)
    (out : Nat) (bytes : List Nat)
    (hnh : curr ≠ read32LE img offset)
    (hub : ub curr (read32LE img offset - curr) = .ok (out, bytes)) :
    (POLYFS_BLOCK_SIZE ≤ size → out ≠ POLYFS_BLOCK_SIZE →
      duLoop ub img (fuel + 1) offset curr size endData acc =
        .error (FSCK_UNCORRECTED, "non-block bytes"))
    ∧ (size < POLYFS_BLOCK_SIZE → out ≠ size →
      duLoop ub img (fuel + 1) offset curr size endData acc =
        .error (FSCK_UNCORRECTED, "non-size bytes"))
    ∧ (∀ r, duLoop ub img (fuel + 1) offset curr size endData acc = .ok r →
      out = if POLYFS_BLOCK_SIZE ≤ size then POLYFS_BLOCK_SIZE else size) := by
  have key : duLoop ub img (fuel + 1) offset curr size endData acc =
      (if POLYFS_BLOCK_SIZE ≤ size ∧ out ≠ POLYFS_BLOCK_SIZE then
        .error (FSCK_UNCORRECTED, "non-block bytes")
      else if size < POLYFS_BLOCK_SIZE ∧ out ≠ size then
        .error (FSCK_UNCORRECTED, "non-size bytes")
      else if size - out = 0 then
        .ok (max endData (read32LE img offset), acc ++ bytes.take out)
      else duLoop ub img fuel (offset + 4) (read32LE img offset) (size - out)
        (max endData (read32LE img offset)) (acc ++ bytes.take out)) := by
    simp only [duLoop]
    rw [if_neg hnh, hub]
  refine ⟨?_, ?_, ?_⟩
  · intro hge hne
    rw [key, if_pos ⟨hge, hne⟩]
  · intro hlt hne
    rw [key, if_neg (by rintro ⟨h, -⟩; omega), if_pos ⟨hlt, hne⟩]
  · intro r hok
    rw [key] at hok
    by_cases hA : POLYFS_BLOCK_SIZE ≤ size ∧ out ≠ POLYFS_BLOCK_SIZE
    · rw [if_pos hA] at hok
      exact absurd hok (by simp)
    · by_cases hB : size < POLYFS_BLOCK_SIZE ∧ out ≠ size
      · rw [if_neg hA, if_pos hB] at hok
        exact absurd hok (by simp)
      · push_neg at hA hB
        by_cases hc : POLYFS_BLOCK_SIZE ≤ size
        · rw [if_pos hc]
          exact hA hc
        · rw [if_neg hc]
          exact hB (by omega)

/-- C5 witness: a non-hole block whose decompressed length is 5 while 4096
bytes of the file remain dies UNCORRECTED "non-block bytes". -/
theorem c5_block_size_checks_witness :
    duLoop (fun _ _ => .ok (5, List.replicate 5 1)) [0, 0, 0, 0]
        1 0 999 4096 0 [] =
      .error (FSCK_UNCORRECTED, "non-block bytes") :=
  (c5_block_size_checks (fun _ _ => .ok (5, List.replicate 5 1)) [0, 0, 0, 0]
    0 0 999 4096 0 [] 5 (List.replicate 5 1) (by decide) rfl).1
    (by decide) (by decide)

/-- C6: when the block-end pointer read at offset equals curr, the block is a
hole: the loop emits exactly min(BLOCK_SIZE, remaining) zero bytes, passes
the per-block size checks, and either finishes (remaining ≤ BLOCK_SIZE) or
continues with the remaining size reduced by a full block. -/
theorem c6_hole_zero_fill
    (ub : Nat → Nat → Except (Nat × String) (Nat × List Nat)) (img : List Nat)
    (fuel offset curr size endData : Nat) (acc : List Nat)
    (hh : curr = read32LE img offset) :
    duLoop ub img (fuel + 1) offset curr size endData acc =
      if size ≤ POLYFS_BLOCK_SIZE then
        .ok (max endData curr, acc ++ List.replicate (min POLYFS_BLOCK_SIZE size) 0)
      else duLoop ub img fuel (offset + 4) curr (size - POLYFS_BLOCK_SIZE)
        (max endData curr) (acc ++ List.replicate POLYFS_BLOCK_SIZE 0) := by
  have key : duLoop ub img (fuel + 1) offset curr size endData acc =
      (if POLYFS_BLOCK_SIZE ≤ size ∧
          (if size < POLYFS_BLOCK_SIZE then size else POLYFS_BLOCK_SIZE) ≠
            POLYFS_BLOCK_SIZE then
        .error (FSCK_UNCORRECTED, "non-block bytes")
      else if size < POLYFS_BLOCK_SIZE ∧
          (if size < POLYFS_BLOCK_SIZE then size else POLYFS_BLOCK_SIZE) ≠ size then
        .error (FSCK_UNCORRECTED, "non-size bytes")
      else if size -
          (if size < POLYFS_BLOCK_SIZE then size else POLYFS_BLOCK_SIZE) = 0 then
        .ok (max endData curr, acc ++
          (List.replicate (if size < POLYFS_BLOCK_SIZE then size else POLYFS_BLOCK_SIZE) 0).take
            (if size < POLYFS_BLOCK_SIZE then size else POLYFS_BLOCK_SIZE))
      else duLoop ub img fuel (offset + 4) curr
        (size - (if size < POLYFS_BLOCK_SIZE then size else POLYFS_BLOCK_SIZE))
        (max endData curr) (acc ++
          (List.replicate (if size < POLYFS_BLOCK_SIZE then size else POLYFS_BLOCK_SIZE) 0).take
            (if size < POLYFS_BLOCK_SIZE then size else POLYFS_BLOCK_SIZE))) := by
    simp only [duLoop, ← hh]
    simp only [if_true, eq_self_iff_true]
  rcases lt_trichotomy size POLYFS_BLOCK_SIZE with h | h | h
  · rw [key, if_pos h, if_neg (by rintro ⟨hge, -⟩; omega),
      if_neg (by rintro ⟨-, hne⟩; exact hne rfl),
      if_pos (by omega : size - size = 0),
      if_pos (by omega : size ≤ POLYFS_BLOCK_SIZE),
      List.take_replicate, Nat.min_self,
      show min POLYFS_BLOCK_SIZE size = size from by omega]
  · rw [key, if_neg (show ¬ (size < POLYFS_BLOCK_SIZE) from by omega),
      if_neg (by rintro ⟨-, hne⟩; exact hne rfl),
      if_neg (by rintro ⟨hlt, -⟩; omega),
      if_pos (by omega : size - POLYFS_BLOCK_SIZE = 0),
      if_pos (by omega : size ≤ POLYFS_BLOCK_SIZE),
      List.take_replicate, Nat.min_self,
      show min POLYFS_BLOCK_SIZE size = POLYFS_BLOCK_SIZE from by omega]
  · rw [key, if_neg (show ¬ (size < POLYFS_BLOCK_SIZE) from by omega),
      if_neg (by rintro ⟨-, hne⟩; exact hne rfl),
      if_neg (by rintro ⟨hlt, -⟩; omega),
      if_neg (show ¬ (size - POLYFS_BLOCK_SIZE = 0) from by omega),
      if_neg (show ¬ (size ≤ POLYFS_BLOCK_SIZE) from by omega),
      List.take_replicate, Nat.min_self]

/-- C6 witness: a short final hole (pointer value 7 equal to curr, 100 bytes
remaining) yields 100 zero bytes and a successful exit. -/
theorem c6_hole_zero_fill_witness :
    duLoop (fun _ _ => .error (FSCK_ERROR, "unused")) [7, 0, 0, 0]
        1 0 7 100 0 [] = .ok (7, List.replicate 100 0) := by
  rw [c6_hole_zero_fill (fun _ _ => .error (FSCK_ERROR, "unused")) [7, 0, 0, 0]
    0 0 7 100 0 [] (by decide), if_pos (by decide)]
  rfl

/-- C7: do_symlink dies UNCORRECTED "symbolic link has zero offset" when the
payload offset is zero, UNCORRECTED "symbolic link has zero size" when the
declared size is zero, and otherwise, after the single block decompresses to
out bytes, dies UNCORRECTED "size error in symlink" exactly when out differs
from the declared size, succeeding with the updated start_data / end_data
counters when it matches. -/
theorem c7_symlink_checks
    (ub : Nat → Nat → Except (Nat × String) (Nat × List Nat)) (img : List Nat)
    (ioffset isize startData endData : Nat) :
    (ioffset = 0 → do_symlink ub img ioffset isize startData endData =
      .error (FSCK_UNCORRECTED, "symbolic link has zero offset"))
    ∧ (ioffset ≠ 0 → isize = 0 →
      do_symlink ub img ioffset isize startData endData =
        .error (FSCK_UNCORRECTED, "symbolic link has zero size"))
    ∧ (∀ out bytes, ioffset ≠ 0 → isize ≠ 0 →
      ub (ioffset * 4 + 4) (read32LE img (ioffset * 4) - (ioffset * 4 + 4)) =
        .ok (out, bytes) →
      (out ≠ isize → do_symlink ub img ioffset isize startData endData =
        .error (FSCK_UNCORRECTED, "size error in symlink"))
      ∧ (out = isize → do_symlink ub img ioffset isize startData endData =
        .ok (min (ioffset * 4) startData,
          max endData (read32LE img (ioffset * 4))))) := by
  refine ⟨?_, ?_, ?_⟩
  · intro h0
    unfold do_symlink
    rw [if_pos (by omega)]
  · intro h0 hs
    unfold do_symlink
    rw [if_neg (by omega), if_pos hs]
  · intro out bytes h0 hs hub
    have hmin : (if ioffset * 4 < startData then ioffset * 4 else startData) =
        min (ioffset * 4) startData := by
      split_ifs <;> omega
    have hmax : (if read32LE img (ioffset * 4) > endData
        then read32LE img (ioffset * 4) else endData) =
        max endData (read32LE img (ioffset * 4)) := by
      split_ifs <;> omega
    have hstep : do_symlink ub img ioffset isize startData endData =
        (if out ≠ isize then
          .error (FSCK_UNCORRECTED, "size error in symlink")
        else .ok
          ((if ioffset * 4 < startData then ioffset * 4 else startData),
            (if read32LE img (ioffset * 4) > endData
              then read32LE img (ioffset * 4) else endData))) := by
      unfold do_symlink
      rw [if_neg (by omega), if_neg hs, hub]
    constructor
    · intro hne
      rw [hstep, if_pos hne]
    · intro heq
      rw [hstep, if_neg (by simp [heq]), hmin, hmax]

/-- C7 witness: a symlink whose single block decompresses to its declared
size of 6 bytes is accepted with start_data and end_data updated. -/
theorem c7_symlink_checks_witness :
    do_symlink (fun _ _ => .ok (6, [1, 2, 3, 4, 5, 6])) [] 10 6 100 0 =
      .ok (40, 0) := by
  have h := ((c7_symlink_checks (fun _ _ => .ok (6, [1, 2, 3, 4, 5, 6])) []
    10 6 100 0).2.2 6 [1, 2, 3, 4, 5, 6] (by decide) (by decide) rfl).2 rfl
  rw [h]
  rfl

/-- C8: any superblock whose flags contain a bit outside
POLYFS_SUPPORTED_FLAGS makes the decoder die with exit code FSCK_ERROR = 8
and the message "unsupported filesystem features"; this exit code is not
FSCK_UNCORRECTED = 4. -/
theorem c8_unsupported_flags (flags size files length : Nat)
    (h : flags &&& UNSUPPORTED_MASK ≠ 0) :
    test_super_checks flags size files length =
      .error (FSCK_ERROR, "unsupported filesystem features")
    ∧ FSCK_ERROR ≠ FSCK_UNCORRECTED := by
  constructor
  · unfold test_super_checks
    rw [if_pos h]
  · decide

/-- C8 witness: flag bit 0x2, outside the supported set, is rejected with
exit code 8. -/
theorem c8_unsupported_flags_witness :
    test_super_checks 0x2 4096 1 4096 =
        .error (FSCK_ERROR, "unsupported filesystem features")
      ∧ FSCK_ERROR ≠ FSCK_UNCORRECTED :=
  c8_unsupported_flags 0x2 4096 1 4096 (by decide)

/-- C9: whatever the walk would do (any expandRes), a root inode whose mode
does not carry the directory file-type bits makes test_fs die UNCORRECTED
"root inode is not directory" before any per-type handler runs. -/
theorem c9_root_not_directory
    (expandRes : Except (Nat × String) (Nat × Nat × Nat × Nat))
    (flags rootMode field start size : Nat)
    (h : rootMode &&& S_IFMT ≠ S_IFDIR) :
    test_fs expandRes flags rootMode field start size =
      .error (FSCK_UNCORRECTED, "root inode is not directory") := by
  unfold test_fs
  rw [if_pos h]

/-- C9 witness: a regular-file root mode (0x81ED) is rejected regardless of
the walk result. -/
theorem c9_root_not_directory_witness :
    test_fs (.ok (UNDEF, 0, UNDEF, 0)) 0x1 0x81ED 19 0 4096 =
      .error (FSCK_UNCORRECTED, "root inode is not directory") :=
  c9_root_not_directory (.ok (UNDEF, 0, UNDEF, 0)) 0x1 0x81ED 19 0 4096
    (by decide)

/-- C10: the directory child loop stops as soon as its signed count reaches
zero or below (first conjunct), and when every per-child check passes (names
non-empty, padding at most 3, children expand successfully, offsets past
start_dir) it terminates successfully for any initial count whatsoever
(second conjunct): the count never has to land exactly on zero, so a declared
directory size that overshoots into the middle of a child record produces no
error from the count itself. Each child record is 12 + 4 * namelen ≥ 16
bytes, so a fuel of at least count / 16 rounds suffices. -/
theorem c10_no_exact_size_check (nl pad : Nat → Nat)
    (exp : Nat → Except (Nat × String) Unit) (startDir : Nat) :
    ∀ (fuel : Nat) (count : Int) (offset endDir : Nat),
      (count ≤ 0 →
        dirLoop nl pad exp startDir fuel count offset endDir = .ok endDir)
      ∧ ((∀ o, 1 ≤ nl o) → (∀ o, pad o ≤ 3) → (∀ o, exp o = .ok ()) →
          startDir < offset → count ≤ 16 * (fuel : Int) →
          ∃ e, dirLoop nl pad exp startDir fuel count offset endDir = .ok e) := by
  intro fuel
  induction fuel with
  | zero =>
    intro count offset endDir
    refine ⟨fun h => by simp [dirLoop, h], fun _ _ _ _ hc => ?_⟩
    have h0 : count ≤ 0 := by omega
    exact ⟨endDir, by simp [dirLoop, h0]⟩
  | succ fuel ih =>
    intro count offset endDir
    refine ⟨fun h => by simp [dirLoop, h], fun h1 h2 h3 h4 hc => ?_⟩
    by_cases h0 : count ≤ 0
    · exact ⟨endDir, by simp [dirLoop, h0]⟩
    · have hnl := h1 offset
      have hpad := h2 (offset + 12)
      simp only [dirLoop, if_neg h0]
      rw [if_neg (by omega), if_neg (by omega), h3 offset]
      rw [if_neg (by omega)]
      exact (ih (count - (12 + (↑(nl offset * 4) : Int)))
        (offset + 12 + nl offset * 4) (max endDir (offset + 12 + nl offset * 4))).2
        h1 h2 h3 (by omega) (by push_cast; push_cast at hc; omega)

/-- C10 witness: two 16-byte child records under a declared size of 17: the
count goes 17, then 1 (still positive), then -15, and the loop exits
successfully without any exact-sum check. -/
theorem c10_no_exact_size_check_witness :
    ∃ e, dirLoop (fun _ => 1) (fun _ => 0) (fun _ => .ok ()) 0 2 17 100 0 =
      .ok e :=
  (c10_no_exact_size_check (fun _ => 1) (fun _ => 0) (fun _ => .ok ()) 0
    2 17 100 0).2 (fun _ => le_refl 1) (fun _ => by decide) (fun _ => rfl)
    (by decide) (by decide)

end Polyfsck

